import Mathlib

/-! # Verification of the TreatOrHell service core

Shallow embedding of `src/api/index.py`: the file-backed response store
(`get_student_responses_path` / `read_student_responses` / the write in
`submit_questions`) and the three persona chat handlers (`chat_nicholas`,
`chat_angel`, `chat_devil`).

Modelling conventions:
* The store file at the fixed path is modelled by `StoreState`: it is
  absent, present with some text content, or present but unreadable (an
  exception is raised on open/read).
* The environment variable `OPENAI_API_KEY` is an `Option String`
  (`none` = unset).
* One call to `client.chat.completions.create` is modelled by a function
  `List ChatMessage → ProviderOutcome` supplied to the handler; the
  handler never calls it when the module-level `client` is `None`.
* A raised `HTTPException` is the `Except.error` branch of the handler's
  result.
* Python truthiness of an `Optional[str]` (`if api_key:` at line 13,
  `if student_responses:` at line 281) is `pyTruthy`: `None` and the
  empty string are falsy, every other string is truthy.
-/

namespace TreatOrHell

/-- State of the response-store file at the fixed path returned by
`get_student_responses_path` (src/api/index.py lines 47-54): never
written (or deleted), present with some text `content`, or present but
raising an I/O error when opened/read. -/
inductive StoreState where
  | absent
  | present (content : String)
  | unreadable
  deriving DecidableEq

/-- `read_student_responses` (src/api/index.py lines 56-65): if the file
exists, try to read and return its text; `except Exception: return None`
swallows any read failure; if the file does not exist, return `None`. -/
def read_student_responses : StoreState → Option String
  | .absent => none
  | .present c => some c
  | .unreadable => none

/-- Python truthiness of an `Optional[str]` value: `None` and `""` are
falsy, any nonempty string is truthy. -/
def pyTruthy : Option String → Bool
  | none => false
  | some s => !(s == "")

/-- Module-level client setup (src/api/index.py lines 12-16):
`api_key = os.getenv("OPENAI_API_KEY")`; the `OpenAI` client is
constructed only when `api_key` is truthy, else `client = None`. The
constructed client is represented by the key it carries. -/
def client (api_key : Option String) : Option String :=
  if pyTruthy api_key then api_key else none

/-- A raised `fastapi.HTTPException`. -/
structure HTTPException where
  status_code : Nat
  detail : String
  deriving DecidableEq

/-- The JSON body of `POST /chat/...` requests. -/
structure ChatRequest where
  message : String
  deriving DecidableEq

/-- Role of one chat-completion message. -/
inductive Role where
  | system
  | user
  | assistant
  deriving DecidableEq

/-- One entry of the message list sent to the completion provider. -/
structure ChatMessage where
  role : Role
  content : String
  deriving DecidableEq

/-- Outcome of the one external call to
`client.chat.completions.create`: the provider's top reply text, or an
exception (network, auth, malformed response) whose text is `message`. -/
inductive ProviderOutcome where
  | reply (text : String)
  | failure (message : String)
  deriving DecidableEq

/-- The JSON body returned by a chat handler on success. -/
structure ChatReply where
  reply : String
  deriving DecidableEq

/-- Outcome of the file-system write in `submit_questions`: success, or
an exception whose text is `cause`. -/
inductive WriteOutcome where
  | success
  | ioError (cause : String)
  deriving DecidableEq

/-- The confirmation page returned by `submit_questions` on success
(src/api/index.py lines 200-239); its HTML markup is static presentation
and is not further modelled. -/
inductive SubmitResponse where
  | successPage
  deriving DecidableEq

/-- The four constant segments of the f-string written by
`submit_questions` (src/api/index.py lines 182-193), transcribed
verbatim, composed with the four submitted answers. -/
def submissionContent (q1 q2 q3 q4 : String) : String :=
  "Q1 — How did you handle your first assignment in this course?\n" ++ q1 ++
  "\n\nQ2 — When you didn't understand something, what did you do?\n" ++ q2 ++
  "\n\nQ3 — How do you engage in class?\n" ++ q3 ++
  "\n\nQ4 — How many hours did you spend on the assignment?\n" ++ q4 ++ "\n"

/-- The fixed Q1 label line of the stored file format. -/
def labelQ1 : String := "Q1 — How did you handle your first assignment in this course?"

/-- The fixed Q2 label line of the stored file format. -/
def labelQ2 : String := "Q2 — When you didn't understand something, what did you do?"

/-- The fixed Q3 label line of the stored file format. -/
def labelQ3 : String := "Q3 — How do you engage in class?"

/-- The fixed Q4 label line of the stored file format. -/
def labelQ4 : String := "Q4 — How many hours did you spend on the assignment?"

/-- Detail text of the 500 raised by `submit_questions` when the write
fails (src/api/index.py line 241), before the appended cause text. -/
def saveErrorText : String := "Error saving responses: "

/-- `submit_questions` (src/api/index.py lines 167-241): formats the four
answers into the labelled text and overwrites the store file with it;
on success returns the confirmation page, on any exception raises a 500
whose detail is `"Error saving responses: "` plus the cause. The result
is the store state after the handler plus its HTTP-visible response; a
failed write is modelled as leaving the prior state (the HTTP response,
not the partial file content, is what the handler exposes). -/
def submit_questions (q1 q2 q3 q4 : String) (st : StoreState)
    (io : WriteOutcome) : StoreState × Except HTTPException SubmitResponse :=
  match io with
  | .success =>
      (.present (submissionContent q1 q2 q3 q4), .ok .successPage)
  | .ioError e =>
      (st, .error ⟨500, saveErrorText ++ e⟩)

/-- CPython semantics of `open(responses_path, "w")` in
`submit_questions` (src/api/index.py line 196): opening an existing file
in mode `"w"` truncates it to empty before any byte of the new content
is written. This is the first of the two observable steps of the write
(there is no write-to-temporary-then-rename in the source). -/
def openTruncate (_st : StoreState) : StoreState := .present ""

/-- Second observable step of the write in `submit_questions`
(src/api/index.py lines 196-197): `f.write(content)` followed by the
close of the `with` block leaves the full new content in the file. -/
def writeContent (content : String) (_st : StoreState) : StoreState :=
  .present content

/-- Detail text of the 500 raised by all three chat handlers when the
module-level `client` is `None` (src/api/index.py lines 246, 269, 308). -/
def credentialMissingDetail : String :=
  "OPENAI_API_KEY environment variable is not set"

/-- Detail text of the 500 raised by all three chat handlers when the
provider call raises (src/api/index.py lines 264, 303, 326), before the
appended cause text. -/
def openaiErrorText : String := "Error calling OpenAI API: "

/-- Fixed system prompt of `chat_nicholas` (src/api/index.py lines
251-256), transcribed verbatim. -/
def nicholasSystemPrompt : String :=
  "You are St. Nicholas (Mikuláš).\n                    Jolly, warm, and wise. You're the one who decides if someone gets a treat or goes to hell.\n                    Use \"Ho ho ho!\" occasionally. \n                    Your vibe: warm, supportive, fair but firm.\n                    You encourage good behavior and gently warn about bad behavior.\n                    Always end on encouragement."

/-- Fixed one-shot example user message of `chat_nicholas` (line 257). -/
def nicholasExampleUser : String :=
  "I only studied for 2 hours this week, but I really tried my best!"

/-- Fixed one-shot example assistant message of `chat_nicholas` (line 258). -/
def nicholasExampleAssistant : String :=
  "Ho ho ho! I see you put in some effort, my child. Two hours shows you care, but remember, wisdom comes with consistent dedication. Let's aim for a bit more next time, shall we? I believe in you—you have the heart for it, and that's what matters most. Keep that spirit, and you'll find yourself on the path to treats!"

/-- Fixed base system prompt of `chat_angel` (src/api/index.py lines
275-279), transcribed verbatim. -/
def angelBasePrompt : String :=
  "You are an overly emotional, sparkly Anděl (Angel).\n            Everything is dramatic, positive, full of tears and glitter.\n            You compliment the user even when they clearly messed up.\n            You believe in redemption no matter what.\n            Your tone: soft, poetic, hopeful, enthusiastic."

/-- Constant part of the Angel injection suffix before the embedded
stored text (src/api/index.py lines 282-286), transcribed verbatim. -/
def angelSuffixBefore : String :=
  "\n\nIMPORTANT: The student has submitted their self-assessment. Here are their answers:\n\n"

/-- Constant part of the Angel injection suffix after the embedded
stored text (src/api/index.py lines 286-290), transcribed verbatim. -/
def angelSuffixAfter : String :=
  "\n\nWhen responding to the user, reference their specific answers and behavior from these responses. \nAcknowledge their efforts, struggles, and engagement patterns. Be encouraging about their self-awareness \nand use their specific examples to provide personalized, emotional, and sparkly feedback."

/-- System-prompt composition of `chat_angel` (src/api/index.py lines
275-290): start from the fixed base prompt; `if student_responses:`
(Python truthiness: `None` and `""` are falsy) append the f-string
suffix embedding the stored text verbatim. -/
def angel_system_prompt (student_responses : Option String) : String :=
  if pyTruthy student_responses then
    angelBasePrompt ++ angelSuffixBefore ++ student_responses.getD "" ++ angelSuffixAfter
  else
    angelBasePrompt

/-- Fixed one-shot example user message of `chat_angel` (line 296). -/
def angelExampleUser : String :=
  "I completely forgot to do my homework and failed the test..."

/-- Fixed one-shot example assistant message of `chat_angel` (line 297). -/
def angelExampleAssistant : String :=
  "*tears of joy streaming down sparkly cheeks* Oh, my beautiful soul! ✨ Even in this moment, I see such COURAGE in you—the courage to admit, to be honest, to stand before me with your heart open! This is not failure, darling, this is a GOLDEN OPPORTUNITY for growth! Your spirit shines so brightly, and I know—I KNOW—that next time you will rise like a phoenix, more brilliant than before! The universe believes in you, and so do I! 🌟💫"

/-- Fixed system prompt of `chat_devil` (src/api/index.py lines
313-318), transcribed verbatim. -/
def devilSystemPrompt : String :=
  "You are a Czech-style Čert (Devil).\n                    Sarcastic, chaotic, dramatic, slightly annoyed, but FUNNY.\n                    You mock the user in a light, comedic way.\n                    Use playful threats like \"pack your bags\" or \"you're almost ready for hell,\"\n                    but always in a humorous, friendly tone.\n                    Never imply real harm or real punishment."

/-- Fixed one-shot example user message of `chat_devil` (line 319). -/
def devilExampleUser : String :=
  "I procrastinated all week and now I have to finish everything in one night!"

/-- Fixed one-shot example assistant message of `chat_devil` (line 320). -/
def devilExampleAssistant : String :=
  "Oh, look who's here! *rolls eyes dramatically* The master of time management has arrived! Well, well, well... you know what they say: 'Why do today what you can put off until 3 AM tomorrow?' Classic move, my friend! 😈 You're practically writing your own ticket to my place at this rate. But hey, at least you're consistent—I'll give you that! Maybe pack a toothbrush for your future visit? Just kidding... or am I? *winks*"

/-- The message list `chat_nicholas` passes to
`client.chat.completions.create` (src/api/index.py lines 250-260). -/
def nicholasMessages (userMessage : String) : List ChatMessage :=
  [⟨.system, nicholasSystemPrompt⟩,
   ⟨.user, nicholasExampleUser⟩,
   ⟨.assistant, nicholasExampleAssistant⟩,
   ⟨.user, userMessage⟩]

/-- The message list `chat_angel` passes to
`client.chat.completions.create` (src/api/index.py lines 294-299),
given the composed system prompt. -/
def angelMessages (system_prompt userMessage : String) : List ChatMessage :=
  [⟨.system, system_prompt⟩,
   ⟨.user, angelExampleUser⟩,
   ⟨.assistant, angelExampleAssistant⟩,
   ⟨.user, userMessage⟩]

/-- The message list `chat_devil` passes to
`client.chat.completions.create` (src/api/index.py lines 312-321). -/
def devilMessages (userMessage : String) : List ChatMessage :=
  [⟨.system, devilSystemPrompt⟩,
   ⟨.user, devilExampleUser⟩,
   ⟨.assistant, devilExampleAssistant⟩,
   ⟨.user, userMessage⟩]

/-- `chat_nicholas` (src/api/index.py lines 243-264): if the
module-level `client` is `None`, raise the 500 configuration error
before anything else; otherwise call the provider once with the fixed
message list, returning its reply or re-raising its failure as a 500.
The `_st` argument is the ambient response-store state, which this
handler never reads. -/
def chat_nicholas (req : ChatRequest) (api_key : Option String)
    (_st : StoreState) (provider : List ChatMessage → ProviderOutcome) :
    Except HTTPException ChatReply :=
  match client api_key with
  | none => .error ⟨500, credentialMissingDetail⟩
  | some _ =>
      match provider (nicholasMessages req.message) with
      | .reply t => .ok ⟨t⟩
      | .failure m => .error ⟨500, openaiErrorText ++ m⟩

/-- `chat_angel` (src/api/index.py lines 266-303): if the module-level
`client` is `None`, raise the 500 configuration error; otherwise read
the student responses from the store, compose the system prompt
(appending the injection suffix when the read result is truthy), and
call the provider once with the resulting message list. -/
def chat_angel (req : ChatRequest) (api_key : Option String)
    (st : StoreState) (provider : List ChatMessage → ProviderOutcome) :
    Except HTTPException ChatReply :=
  match client api_key with
  | none => .error ⟨500, credentialMissingDetail⟩
  | some _ =>
      let student_responses := read_student_responses st
      let system_prompt := angel_system_prompt student_responses
      match provider (angelMessages system_prompt req.message) with
      | .reply t => .ok ⟨t⟩
      | .failure m => .error ⟨500, openaiErrorText ++ m⟩

/-- `chat_devil` (src/api/index.py lines 305-326): same control flow as
`chat_nicholas` with the Devil configuration. The `_st` argument is the
ambient response-store state, which this handler never reads. -/
def chat_devil (req : ChatRequest) (api_key : Option String)
    (_st : StoreState) (provider : List ChatMessage → ProviderOutcome) :
    Except HTTPException ChatReply :=
  match client api_key with
  | none => .error ⟨500, credentialMissingDetail⟩
  | some _ =>
      match provider (devilMessages req.message) with
      | .reply t => .ok ⟨t⟩
      | .failure m => .error ⟨500, openaiErrorText ++ m⟩

/-- `pat` occurs verbatim as a contiguous substring of `s`. -/
def ContainsStr (s pat : String) : Prop :=
  ∃ a b, s = a ++ pat ++ b

/-- A composed Angel prompt carries the injection suffix: it is the base
prompt followed by the instructional suffix wrapped around some stored
text. -/
def HasInjectionSuffix (p : String) : Prop :=
  ∃ r, p = angelBasePrompt ++ angelSuffixBefore ++ r ++ angelSuffixAfter

/-- A provider that always answers with the fixed reply `text`. -/
def constReplyProvider (text : String) : List ChatMessage → ProviderOutcome :=
  fun _ => .reply text

/-- The base Angel prompt does not end in the injection suffix: the
suffix's constant part is nonempty, so appending it strictly lengthens
the prompt. -/
theorem angelBasePrompt_no_suffix : ¬ HasInjectionSuffix angelBasePrompt := by
  rintro ⟨r, hr⟩
  have h := congrArg String.length hr
  simp only [String.length_append] at h
  have hb : 0 < angelSuffixBefore.length := by decide
  omega

/-- When the read result is truthy, the Angel prompt is the base prompt
followed by the injection suffix around the stored text. -/
theorem angel_system_prompt_pos (o : Option String) (h : pyTruthy o = true) :
    angel_system_prompt o =
      angelBasePrompt ++ angelSuffixBefore ++ o.getD "" ++ angelSuffixAfter := by
  simp [angel_system_prompt, h]

/-- When the read result is falsy (absent or empty), the Angel prompt is
exactly the base prompt. -/
theorem angel_system_prompt_neg (o : Option String) (h : pyTruthy o = false) :
    angel_system_prompt o = angelBasePrompt := by
  simp [angel_system_prompt, h]

/-- The Angel prompt carries the injection suffix exactly when the read
result is truthy. -/
theorem hasInjectionSuffix_iff_truthy (o : Option String) :
    HasInjectionSuffix (angel_system_prompt o) ↔ pyTruthy o = true := by
  cases h : pyTruthy o with
  | false =>
      rw [angel_system_prompt_neg o h]
      constructor
      · intro hs
        exact absurd hs angelBasePrompt_no_suffix
      · intro hf
        exact absurd hf (by decide)
  | true =>
      rw [angel_system_prompt_pos o h]
      exact ⟨fun _ => rfl, fun _ => ⟨o.getD "", rfl⟩⟩

set_option maxRecDepth 10000 in
/-- C1: for every submission `(q1,q2,q3,q4)`, performing the Response
Store write (`submit_questions`, successful write) and then a read
(`read_student_responses`) returns present text that is exactly the
fixed labelled layout: each of the four fixed question labels verbatim
and in order, each immediately followed by the corresponding answer
verbatim, with blank-line separation (and a trailing newline). -/
theorem C1_submit_then_read_layout (q1 q2 q3 q4 : String) (st : StoreState) :
    read_student_responses (submit_questions q1 q2 q3 q4 st WriteOutcome.success).1 =
      some (labelQ1 ++ "\n" ++ q1 ++ "\n\n" ++ labelQ2 ++ "\n" ++ q2 ++ "\n\n" ++
        labelQ3 ++ "\n" ++ q3 ++ "\n\n" ++ labelQ4 ++ "\n" ++ q4 ++ "\n") := by
  simp only [submit_questions, read_student_responses, submissionContent,
    labelQ1, labelQ2, labelQ3, labelQ4, String.append_assoc]
  rfl

/-- C2 counterexample: when the store file is present with empty
content, the Response Store read returns a present record (`some ""`),
yet the composed Angel system prompt is exactly the base prompt and
carries no injection suffix — refuting "suffix if and only if the read
returns a present record". -/
theorem C2_counterexample_empty_store :
    (read_student_responses (StoreState.present "")).isSome = true ∧
    angel_system_prompt (read_student_responses (StoreState.present "")) =
      angelBasePrompt ∧
    ¬ HasInjectionSuffix
        (angel_system_prompt (read_student_responses (StoreState.present ""))) := by
  refine ⟨rfl, rfl, ?_⟩
  intro hs
  exact angelBasePrompt_no_suffix hs

/-- C2 amended: the composed Angel system prompt contains the injection
suffix if and only if the Response Store read returns a present and
nonempty record (Python truthiness); when present and nonempty, the
prompt contains the stored text verbatim; when the read result is falsy
(absent, or present but empty), the prompt is exactly the base prompt
with no suffix. -/
theorem C2_amended_injection_suffix_iff (st : StoreState) :
    (HasInjectionSuffix (angel_system_prompt (read_student_responses st)) ↔
      pyTruthy (read_student_responses st) = true) ∧
    (∀ r, read_student_responses st = some r → r ≠ "" →
      ContainsStr (angel_system_prompt (read_student_responses st)) r) ∧
    (pyTruthy (read_student_responses st) = false →
      angel_system_prompt (read_student_responses st) = angelBasePrompt) := by
  refine ⟨hasInjectionSuffix_iff_truthy _, ?_, fun hf => angel_system_prompt_neg _ hf⟩
  intro r hr hne
  rw [hr]
  have ht : pyTruthy (some r) = true := by simp [pyTruthy, hne]
  rw [angel_system_prompt_pos (some r) ht]
  exact ⟨angelBasePrompt ++ angelSuffixBefore, angelSuffixAfter, rfl⟩

/-- C3 counterexample: the write in `submit_questions` is
`open(path, "w")` then `write`, so between the two steps the file is
truncated to empty; a read in that window returns `some ""`, which is
neither the complete old content `"old answers"` nor the complete new
content `"new answers"` — refuting "a concurrent read observes either
the complete old or the complete new content". -/
theorem C3_counterexample_truncate_window :
    read_student_responses (openTruncate (StoreState.present "old answers")) =
      some "" ∧
    read_student_responses (StoreState.present "old answers") ≠ some "" ∧
    read_student_responses
        (writeContent "new answers" (openTruncate (StoreState.present "old answers"))) =
      some "new answers" ∧
    ("" : String) ≠ "old answers" ∧ ("" : String) ≠ "new answers" := by
  refine ⟨rfl, ?_, rfl, ?_, ?_⟩ <;> decide

/-- C3 amended: the write is a plain truncate-then-write of the storage
file, not an atomic replace; a read concurrent with a write observes the
complete old content (before the open), the empty content left by
truncation (between open and write), or the complete new content (after
the write), and the committed state of `submit_questions` is exactly the
composition of the two steps. -/
theorem C3_amended_truncate_then_write (q1 q2 q3 q4 c : String) (st : StoreState) :
    (submit_questions q1 q2 q3 q4 st WriteOutcome.success).1 =
      writeContent (submissionContent q1 q2 q3 q4) (openTruncate st) ∧
    read_student_responses (openTruncate st) = some "" ∧
    read_student_responses (writeContent c (openTruncate st)) = some c :=
  ⟨rfl, rfl, rfl⟩

/-- C4 counterexample: when the store file exists but reading it fails
for I/O reasons (`StoreState.unreadable`), the failure is not surfaced
to the HTTP caller: `read_student_responses` swallows the exception and
returns `none`, and `chat_angel` succeeds with the provider's reply
instead of raising a 500 — refuting "whenever a read fails for I/O
reasons, the failure is surfaced as a 500". -/
theorem C4_counterexample_read_failure_swallowed :
    read_student_responses StoreState.unreadable = none ∧
    chat_angel ⟨"hi"⟩ (some "sk-test") StoreState.unreadable (constReplyProvider "ok") =
      Except.ok ⟨"ok"⟩ :=
  ⟨rfl, rfl⟩

/-- C4 amended: a failed Response Store write is surfaced to the HTTP
caller as a 500 whose message contains the underlying cause text, with
no retry; a failed Response Store read, however, is swallowed by
`read_student_responses` (which returns the absent signal), so the Angel
handler behaves exactly as if no submission existed. -/
theorem C4_amended_storage_errors (q1 q2 q3 q4 e : String) (st : StoreState)
    (req : ChatRequest) (key : Option String)
    (provider : List ChatMessage → ProviderOutcome) :
    (submit_questions q1 q2 q3 q4 st (WriteOutcome.ioError e)).2 =
      Except.error ⟨500, saveErrorText ++ e⟩ ∧
    ContainsStr (saveErrorText ++ e) e ∧
    read_student_responses StoreState.unreadable = none ∧
    chat_angel req key StoreState.unreadable provider =
      chat_angel req key StoreState.absent provider := by
  refine ⟨rfl, ⟨saveErrorText, "", ?_⟩, rfl, rfl⟩
  simp

/-- C5: reading the Response Store when no submission has ever been
written returns the explicit absent signal `none`;
`read_student_responses` is a total function, so no error is raised in
this case. -/
theorem C5_read_before_write_absent :
    read_student_responses StoreState.absent = none := rfl

/-- C6: for every persona and every user message, the handler with no
configured credential fails with the 500 configuration error, and its
result does not depend on the provider at all (no network attempt is
made); the handlers take the store state read-only and return no state
change. -/
theorem C6_credential_missing_before_provider (req : ChatRequest)
    (st : StoreState) (p q : List ChatMessage → ProviderOutcome) :
    client none = none ∧
    chat_nicholas req none st p = Except.error ⟨500, credentialMissingDetail⟩ ∧
    chat_angel req none st p = Except.error ⟨500, credentialMissingDetail⟩ ∧
    chat_devil req none st p = Except.error ⟨500, credentialMissingDetail⟩ ∧
    chat_nicholas req none st p = chat_nicholas req none st q ∧
    chat_angel req none st p = chat_angel req none st q ∧
    chat_devil req none st p = chat_devil req none st q :=
  ⟨rfl, rfl, rfl, rfl, rfl, rfl, rfl⟩

/-- C7: for every persona and every user message (and any store state,
for Angel), the message list passed to the completion provider has
exactly 4 entries whose roles in order are system, user, assistant,
user, and whose last entry is the actual user message. -/
theorem C7_message_list_shape (u : String) (st : StoreState) :
    ((nicholasMessages u).map ChatMessage.role =
        [Role.system, Role.user, Role.assistant, Role.user] ∧
      (nicholasMessages u).length = 4 ∧
      (nicholasMessages u).getLast? = some ⟨Role.user, u⟩) ∧
    ((angelMessages (angel_system_prompt (read_student_responses st)) u).map
        ChatMessage.role =
        [Role.system, Role.user, Role.assistant, Role.user] ∧
      (angelMessages (angel_system_prompt (read_student_responses st)) u).length = 4 ∧
      (angelMessages (angel_system_prompt (read_student_responses st)) u).getLast? =
        some ⟨Role.user, u⟩) ∧
    ((devilMessages u).map ChatMessage.role =
        [Role.system, Role.user, Role.assistant, Role.user] ∧
      (devilMessages u).length = 4 ∧
      (devilMessages u).getLast? = some ⟨Role.user, u⟩) :=
  ⟨⟨rfl, rfl, rfl⟩, ⟨rfl, rfl, rfl⟩, ⟨rfl, rfl, rfl⟩⟩

/-- C8: for the Nicholas and Devil personas, the handler's result is
identical across any two Response Store states: these handlers never
read the store. -/
theorem C8_nicholas_devil_store_independent (req : ChatRequest)
    (key : Option String) (provider : List ChatMessage → ProviderOutcome)
    (st₁ st₂ : StoreState) :
    chat_nicholas req key st₁ provider = chat_nicholas req key st₂ provider ∧
    chat_devil req key st₁ provider = chat_devil req key st₂ provider :=
  ⟨rfl, rfl⟩

/-- C9: when the credential environment variable is set to the empty
string, no client is constructed (Python truthiness) and every persona
handler fails with the same 500 configuration error as when the variable
is entirely unset. -/
theorem C9_empty_credential_same_as_absent (req : ChatRequest)
    (st : StoreState) (provider : List ChatMessage → ProviderOutcome) :
    client (some "") = none ∧
    chat_nicholas req (some "") st provider =
      Except.error ⟨500, credentialMissingDetail⟩ ∧
    chat_angel req (some "") st provider =
      Except.error ⟨500, credentialMissingDetail⟩ ∧
    chat_devil req (some "") st provider =
      Except.error ⟨500, credentialMissingDetail⟩ ∧
    chat_nicholas req (some "") st provider = chat_nicholas req none st provider ∧
    chat_angel req (some "") st provider = chat_angel req none st provider ∧
    chat_devil req (some "") st provider = chat_devil req none st provider :=
  ⟨rfl, rfl, rfl, rfl, rfl, rfl, rfl⟩

/-- C10: when the store file exists with empty content, the Angel
handler composes its system prompt exactly as in the absent case (the
truthiness test treats empty stored text like no stored text), and the
whole handler behaves identically to the absent case. -/
theorem C10_empty_store_same_as_absent_for_angel (req : ChatRequest)
    (key : Option String) (provider : List ChatMessage → ProviderOutcome) :
    angel_system_prompt (read_student_responses (StoreState.present "")) =
      angelBasePrompt ∧
    angel_system_prompt (read_student_responses StoreState.absent) =
      angelBasePrompt ∧
    pyTruthy (read_student_responses (StoreState.present "")) =
      pyTruthy (read_student_responses StoreState.absent) ∧
    chat_angel req key (StoreState.present "") provider =
      chat_angel req key StoreState.absent provider :=
  ⟨rfl, rfl, rfl, rfl⟩

end TreatOrHell
